import Mathlib

/-!
Verification of the hybrid monthly run-rate prediction engine.

The definitions below are a shallow embedding of the JavaScript source of
the energy-prediction dashboard server (the prediction functions
`getDaysInMonth`, `validateNotFutureSelection`, `getPreviousMonth`,
`calculateCurrentMonthWeight`, `loadPreviousMonthData`,
`calculateConfidenceHybrid` and `predictMonthHybrid`).  JavaScript numbers
are embedded as rationals (ℚ); all the arithmetic the engine performs on
in-range data is exact at this granularity.  `parseFloat(x.toFixed(2))`
rounding at the result boundary is modelled by `round2` (round half up,
matching `toFixed` on the non-negative values produced here).
-/

namespace RunRate

/-- Constant from the source: minimum days of data required (`MIN_DAYS_REQUIRED = 1`). -/
def MIN_DAYS_REQUIRED : ℕ := 1

/-- Constant from the source: hybrid mode threshold (`HYBRID_THRESHOLD = 3`). -/
def HYBRID_THRESHOLD : ℕ := 3

/-- Gregorian leap-year rule, as computed by `Date.UTC` for in-range months. -/
def isLeapYear (year : ℕ) : Bool :=
  (year % 4 == 0 && year % 100 != 0) || (year % 400 == 0)

/-- `getDaysInMonth(year, month)` from the source:
`new Date(Date.UTC(year, month, 0)).getUTCDate()`, i.e. the day count of
`month` (1-based).  Out-of-range months, which `Date.UTC` would normalize
into a neighbouring year, are not modelled beyond the 1..12 range (every
use in the claims keeps the month in range). -/
def getDaysInMonth (year month : ℕ) : ℕ :=
  if month = 1 then 31
  else if month = 2 then (if isLeapYear year then 29 else 28)
  else if month = 3 then 31
  else if month = 4 then 30
  else if month = 5 then 31
  else if month = 6 then 30
  else if month = 7 then 31
  else if month = 8 then 31
  else if month = 9 then 30
  else if month = 10 then 31
  else if month = 11 then 30
  else 31

/-- `String(n).padStart(2, '0')` for a natural number. -/
def pad2 (n : ℕ) : String :=
  if n < 10 then "0" ++ toString n else toString n

/-- `getPreviousMonth(year, month)` from the source: previous period with
year rollover. -/
def getPreviousMonth (year month : ℕ) : ℕ × ℕ :=
  if month = 1 then (year - 1, 12) else (year, month - 1)

/-- One entry of a meter's daily series (`{date, energyKwh}`); the
`YYYY-MM-DD` date string is kept in its parsed form `(y, m, d)`, which is
what the source recovers from it via `split('-').map(Number)`. -/
structure DailyTotal where
  y : ℕ
  m : ℕ
  d : ℕ
  energyKwh : ℚ
deriving DecidableEq

/-- `Math.max` on two rationals, written as the comparison it performs. -/
def mathMax (a b : ℚ) : ℚ := if a ≤ b then b else a

/-- `Math.min` on two rationals, written as the comparison it performs. -/
def mathMin (a b : ℚ) : ℚ := if a ≤ b then a else b

/-- `list.reduce((sum, d) => sum + d.energyKwh, 0)` from the source. -/
def totalEnergy (l : List DailyTotal) : ℚ :=
  l.foldl (fun s e => s + e.energyKwh) 0

/-- `parseFloat(x.toFixed(2))`: round to 2 decimal places (half up; this
matches `toFixed` on the non-negative values produced by the engine). -/
def round2 (x : ℚ) : ℚ :=
  ((⌊x * 100 + 1 / 2⌋ : ℤ) : ℚ) / 100

/-- `x.toFixed(1)` for the percent-complete field, kept as the rounded
rational value. -/
def round1 (x : ℚ) : ℚ :=
  ((⌊x * 10 + 1 / 2⌋ : ℤ) : ℚ) / 10

/-- The confidence record returned by `calculateConfidenceHybrid`
(`{level, score, description}` plus the optional `enhancement` and
`warning` fields). -/
structure Confidence where
  level : String
  score : ℕ
  description : String
  enhancement : Option String
  warning : Option String
deriving DecidableEq

/-- `calculateConfidenceHybrid(daysAnalyzed, totalDays, isHybridMode,
hasPreviousData)` from the source, translated clause by clause. -/
def calculateConfidenceHybrid (daysAnalyzed totalDays : ℕ)
    (isHybridMode hasPreviousData : Bool) : Confidence :=
  let percentComplete : ℚ := ((daysAnalyzed : ℚ) / (totalDays : ℚ)) * 100
  if percentComplete = 100 then
    { level := "exact", score := 100,
      description := "Complete month data - actual value",
      enhancement := none, warning := none }
  else if 80 ≤ percentComplete then
    { level := "very_high", score := 90,
      description := "Near-complete month data",
      enhancement := none, warning := none }
  else if 50 ≤ percentComplete then
    { level := "high", score := 80,
      description := "Majority of month data available",
      enhancement := none, warning := none }
  else if 25 ≤ percentComplete then
    { level := "medium", score := 65,
      description := "Moderate data available",
      enhancement := none, warning := none }
  else if isHybridMode && hasPreviousData then
    if daysAnalyzed = 2 then
      { level := "medium_hybrid", score := 55,
        description := "2 days + previous month hybrid - improved accuracy",
        enhancement := some "Confidence boosted by previous month data",
        warning := none }
    else
      { level := "low_hybrid", score := 45,
        description := "1 day + previous month hybrid - stabilized prediction",
        enhancement := some "Confidence boosted by previous month data",
        warning := none }
  else if daysAnalyzed = 2 then
    { level := "low", score := 35,
      description := "Only 2 days - limited reliability",
      enhancement := none,
      warning := some "Previous month data unavailable" }
  else
    { level := "very_low", score := 25,
      description := "Only " ++ toString daysAnalyzed ++ " day(s) - minimal reliability",
      enhancement := none,
      warning := some "Previous month data unavailable" }

/-- `calculateCurrentMonthWeight(daysAnalyzed)` from the source:
`weights[daysAnalyzed] || 0.30` with `weights = {1: 0.30, 2: 0.50}`. -/
def calculateCurrentMonthWeight (daysAnalyzed : ℕ) : ℚ :=
  if daysAnalyzed = 1 then 3 / 10
  else if daysAnalyzed = 2 then 1 / 2
  else 3 / 10

/-- `loadPreviousMonthData(year, month, meterId)` from the source.  The
database fetch and the hourly/daily roll-up it feeds into
(`fetchReadingsInRange`, `calculateHourlyTotals`, `calculateDailyTotals`)
are external collaborators; their combined outcome enters as the `fetched`
parameter.  `none` models a failed fetch (the `catch` branch); an empty
raw result yields an empty daily list, so the source's
`!rawData || rawData.length === 0` early return is the empty-list case
here.  The `< 50%` completeness check is translated verbatim. -/
def loadPreviousMonthData (year month : ℕ)
    (fetched : Option (List DailyTotal)) : Option (List DailyTotal) :=
  match fetched with
  | none => none
  | some dailyData =>
    if dailyData.length = 0 then none
    else
      let daysInMonth := getDaysInMonth year month
      let dataCompleteness : ℚ := ((dailyData.length : ℚ) / (daysInMonth : ℚ)) * 100
      if dataCompleteness < 50 then none else some dailyData

/-- The `previousMonth` block of the hybrid metadata. -/
structure PrevMonthStats where
  year : ℕ
  month : ℕ
  daysUsed : ℕ
  totalDays : ℕ
  totalEnergy : ℚ
  avgDaily : ℚ
deriving DecidableEq

/-- The `currentMonth` block of the hybrid metadata. -/
structure CurMonthStats where
  daysUsed : ℕ
  totalEnergy : ℚ
  avgDaily : ℚ
deriving DecidableEq

/-- The `hybridMetadata` object: either the full hybrid blend record
(`mode: 'hybrid'`) or the fallback record (`mode: 'standard_fallback'`).
`none` at the use site corresponds to the JS `null` of standard mode. -/
inductive HybridMeta where
  | hybridBlend (previousMonth : PrevMonthStats) (currentMonth : CurMonthStats)
      (weightCurrent weightPrevious : ℚ) (hybridAvgDaily : ℚ) (improvement : String)
  | standardFallback (reason warning : String)
deriving DecidableEq

/-- The `mode` field of a hybrid-metadata object. -/
def HybridMeta.mode : HybridMeta → String
  | .hybridBlend _ _ _ _ _ _ => "hybrid"
  | .standardFallback _ _ => "standard_fallback"

/-- `hybridMetadata?.mode || 'standard'`. -/
def predictionModeOf : Option HybridMeta → String
  | some hm => hm.mode
  | none => "standard"

/-- `hybridMetadata?.previousMonth != null`. -/
def hasPreviousMonthField : Option HybridMeta → Bool
  | some (.hybridBlend _ _ _ _ _ _) => true
  | _ => false

/-- JavaScript truthiness of an optional numeric query parameter
(`null`/absent and `0` are falsy). -/
def optTruthy : Option ℕ → Bool
  | none => false
  | some n => n != 0

/-- Steps 1-2 of `predictMonthHybrid`: prefer the requested period when
provided (`if (!year || !month)` overwrites both from the latest series
entry's date). -/
def resolvePeriod (targetYear targetMonth : Option ℕ)
    (dailyData : List DailyTotal) : ℕ × ℕ :=
  if optTruthy targetYear && optTruthy targetMonth then
    (targetYear.getD 0, targetMonth.getD 0)
  else
    match dailyData.getLast? with
    | some e => (e.y, e.m)
    | none => (0, 0)

/-- The current-month filter predicate of `predictMonthHybrid` step 3:
same year and month, and day of month at most `targetDay` when that is
given. -/
def inTargetPeriod (year month : ℕ) (targetDay : Option ℕ) (e : DailyTotal) : Bool :=
  e.y == year && e.m == month &&
    (match targetDay with
     | some td => decide (e.d ≤ td)
     | none => true)

/-- `dailyData.filter(...)` of `predictMonthHybrid` step 3. -/
def monthDataOf (dailyData : List DailyTotal) (year month : ℕ)
    (targetDay : Option ℕ) : List DailyTotal :=
  dailyData.filter (inTargetPeriod year month targetDay)

/-- `Number.isFinite(targetDay) ? targetDay : daysPassedMonth`. -/
def effectiveLimit (targetDay : Option ℕ) (daysPassedMonth : ℕ) : ℕ :=
  targetDay.getD daysPassedMonth

/-- The successful result object of `predictMonthHybrid` (step 7). -/
structure MonthPrediction where
  year : ℕ
  month : ℕ
  daysPassedMonth : ℕ
  daysInCurrentMonth : ℕ
  totalEnergyMonth : ℚ
  predictedMonthKwh : ℚ
  averageDailyRate : ℚ
  percentMonthComplete : ℚ
  isComplete : Bool
  valueSource : String
  targetDay : Option ℕ
  predictionMode : String
  hybrid : Option HybridMeta
  confidence : Confidence
deriving DecidableEq

/-- Outcome of `predictMonthHybrid`: the `success: false` objects carry
only their message. -/
inductive PredictOutcome where
  | failure (message : String)
  | ok (result : MonthPrediction)
deriving DecidableEq

/-- Projection used to state concrete-input facts about a successful
outcome. -/
def PredictOutcome.okOr : PredictOutcome → MonthPrediction → MonthPrediction
  | .ok r, _ => r
  | .failure _, d => d

/-- `predictMonthHybrid(dailyData, targetYear, targetMonth, targetDay,
meterId)` from the source, translated step by step.  The previous-month
fetch (`loadPreviousMonthData`'s database read plus roll-up, the sole
I/O) enters as the oracle `fetchPrev`, already specialized to the meter.
The source's `previousMonthData && previousMonthData.length > 0` guard is
the `some`/`none` match: `loadPreviousMonthData` maps empty results to
`none`, so a `some` list is never empty. -/
def predictMonthHybrid (dailyData : List DailyTotal)
    (targetYear targetMonth targetDay : Option ℕ)
    (fetchPrev : ℕ → ℕ → Option (List DailyTotal)) : PredictOutcome :=
  if dailyData.length < MIN_DAYS_REQUIRED then
    .failure ("Need at least " ++ toString MIN_DAYS_REQUIRED ++
      " days of data. Currently have " ++ toString dailyData.length ++ " day(s).")
  else
    let yearMonth := resolvePeriod targetYear targetMonth dailyData
    let year := yearMonth.1
    let month := yearMonth.2
    let monthData := monthDataOf dailyData year month targetDay
    if monthData.length < MIN_DAYS_REQUIRED then
      .failure ("Need at least " ++ toString MIN_DAYS_REQUIRED ++
        " days of " ++ toString year ++ "-" ++ pad2 month ++ ".")
    else
      let totalEnergyMonth := totalEnergy monthData
      let daysPassedMonth := monthData.length
      let daysInCurrentMonth := getDaysInMonth year month
      let avgCurrentMonth := totalEnergyMonth / (daysPassedMonth : ℚ)
      let effectiveDayLimit := effectiveLimit targetDay daysPassedMonth
      let percentComplete :=
        mathMin (((effectiveDayLimit : ℚ) / (daysInCurrentMonth : ℚ)) * 100) 100
      let isComplete : Bool := decide (daysInCurrentMonth ≤ effectiveDayLimit)
      let useHybridMode : Bool :=
        decide (daysPassedMonth < HYBRID_THRESHOLD) && !isComplete
      let step : ℚ × ℚ × Option HybridMeta :=
        if !useHybridMode then
          ((if isComplete then totalEnergyMonth
            else avgCurrentMonth * (daysInCurrentMonth : ℚ)),
           avgCurrentMonth, none)
        else
          let prevYM := getPreviousMonth year month
          match loadPreviousMonthData prevYM.1 prevYM.2 (fetchPrev prevYM.1 prevYM.2) with
          | some previousMonthData =>
            let totalEnergyPrevious := totalEnergy previousMonthData
            let daysInPreviousMonth := getDaysInMonth prevYM.1 prevYM.2
            let avgPreviousMonth := totalEnergyPrevious / (previousMonthData.length : ℚ)
            let weightCurrent := calculateCurrentMonthWeight daysPassedMonth
            let weightPrevious := 1 - weightCurrent
            let avgHybrid := avgCurrentMonth * weightCurrent + avgPreviousMonth * weightPrevious
            let predicted := totalEnergyMonth +
              avgHybrid * mathMax ((daysInCurrentMonth : ℚ) - (daysPassedMonth : ℚ)) 0
            (predicted, avgHybrid,
              some (.hybridBlend
                { year := prevYM.1, month := prevYM.2,
                  daysUsed := previousMonthData.length,
                  totalDays := daysInPreviousMonth,
                  totalEnergy := round2 totalEnergyPrevious,
                  avgDaily := round2 avgPreviousMonth }
                { daysUsed := daysPassedMonth,
                  totalEnergy := round2 totalEnergyMonth,
                  avgDaily := round2 avgCurrentMonth }
                weightCurrent weightPrevious (round2 avgHybrid)
                ("Using previous month data (" ++ toString prevYM.1 ++ "-" ++
                  pad2 prevYM.2 ++ ") to stabilize prediction")))
          | none =>
            (avgCurrentMonth * (daysInCurrentMonth : ℚ), avgCurrentMonth,
              some (.standardFallback "Previous month data not available"
                "Prediction based on limited current month data only"))
      let confidence := calculateConfidenceHybrid daysPassedMonth daysInCurrentMonth
        useHybridMode (hasPreviousMonthField step.2.2)
      .ok {
        year := year
        month := month
        daysPassedMonth := daysPassedMonth
        daysInCurrentMonth := daysInCurrentMonth
        totalEnergyMonth := round2 totalEnergyMonth
        predictedMonthKwh := round2 step.1
        averageDailyRate := round2 step.2.1
        percentMonthComplete := round1 percentComplete
        isComplete := isComplete
        valueSource := if isComplete then "actual" else "projection"
        targetDay := targetDay
        predictionMode := predictionModeOf step.2.2
        hybrid := step.2.2
        confidence := confidence }

/-- Result of `validateNotFutureSelection`: `{ok: true}` or
`{ok: false, code, message}` with code `INVALID_DATE` or `FUTURE_DATE`. -/
inductive ValidationResult where
  | ok
  | invalidDate (message : String)
  | futureDate (message : String)
deriving DecidableEq

/-- Strict `>` on `utcMidnightMs` dates.  `Date.UTC(y, m-1, d)` is
strictly monotone in the lexicographic order of `(y, m, d)` whenever the
day is within its month (which holds at the one call site: the day has
just been range-checked, and today's components come from a real clock
date), so the millisecond comparison is embedded lexicographically. -/
def dateAfter (a b : ℕ × ℕ × ℕ) : Bool :=
  a.1 > b.1 || (a.1 == b.1 && (a.2.1 > b.2.1 || (a.2.1 == b.2.1 && a.2.2 > b.2.2)))

/-- `validateNotFutureSelection(year, month, day)` from the source.  The
implicit `new Date()` clock read is passed explicitly as
`(todayYear, todayMonth, todayDay)` (the UTC components); a `none`
parameter models a non-finite (absent/unparsable) query value. -/
def validateNotFutureSelection (todayYear todayMonth todayDay : ℕ)
    (year month day : Option ℕ) : ValidationResult :=
  match year, month with
  | some y, some mo =>
    if mo < 1 || mo > 12 then
      .invalidDate "month out of range (1-12)"
    else if y > todayYear || (y == todayYear && mo > todayMonth) then
      .futureDate "Future months/years are not allowed"
    else
      match day with
      | some d =>
        let dim := getDaysInMonth y mo
        if d < 1 || d > dim then
          .invalidDate ("day out of range (1-" ++ toString dim ++ ")")
        else if dateAfter (y, mo, d) (todayYear, todayMonth, todayDay) then
          .futureDate "Future dates are not allowed"
        else
          .ok
      | none => .ok
  | _, _ =>
    match day with
    | some _ => .invalidDate "day requires year and month"
    | none => .ok

/-! Concrete inputs used by counterexamples and witnesses. -/

/-- A complete December 2024 series at 150 kWh per day (31 days,
`avgDaily = 150`). -/
def dec2024 : List DailyTotal :=
  (List.range 31).map (fun i => { y := 2024, m := 12, d := i + 1, energyKwh := 150 })

/-- A prior-period oracle that has exactly the December 2024 series. -/
def fetchDec (y m : ℕ) : Option (List DailyTotal) :=
  if y = 2024 ∧ m = 12 then some dec2024 else none

/-- A prior-period oracle with no data at all. -/
def fetchNone (_ _ : ℕ) : Option (List DailyTotal) := none

/-- Current series of the single-day scenario: January 1, 2025, 85 kWh. -/
def jan1Series : List DailyTotal := [{ y := 2025, m := 1, d := 1, energyKwh := 85 }]

/-- Placeholder record for the `okOr` projection (never the value of a
successful outcome in any statement below). -/
def emptyPrediction : MonthPrediction :=
  { year := 0, month := 0, daysPassedMonth := 0, daysInCurrentMonth := 0,
    totalEnergyMonth := 0, predictedMonthKwh := 0, averageDailyRate := 0,
    percentMonthComplete := 0, isComplete := false, valueSource := "",
    targetDay := none, predictionMode := "", hybrid := none,
    confidence := { level := "", score := 0, description := "",
                    enhancement := none, warning := none } }

/-! ### Helper lemmas -/

/-- The scorer's score, extracted as a nested conditional on the raw
percent-complete value. -/
theorem confidence_score_eq (d t : ℕ) (hyb prior : Bool) :
    (calculateConfidenceHybrid d t hyb prior).score =
      (if ((d : ℚ) / (t : ℚ)) * 100 = 100 then 100
       else if 80 ≤ ((d : ℚ) / (t : ℚ)) * 100 then 90
       else if 50 ≤ ((d : ℚ) / (t : ℚ)) * 100 then 80
       else if 25 ≤ ((d : ℚ) / (t : ℚ)) * 100 then 65
       else if hyb && prior then (if d = 2 then 55 else 45)
       else if d = 2 then 35 else 25) := by
  simp only [calculateConfidenceHybrid]
  split_ifs <;> rfl

/-- The current-month weight always lies between 0 and 1. -/
theorem calculateCurrentMonthWeight_bounds (d : ℕ) :
    0 ≤ calculateCurrentMonthWeight d ∧ calculateCurrentMonthWeight d ≤ 1 := by
  unfold calculateCurrentMonthWeight
  split_ifs <;> norm_num

/-- A fold of non-negative energies over a non-negative accumulator stays
non-negative. -/
theorem foldl_energy_nonneg (l : List DailyTotal) (a : ℚ)
    (ha : 0 ≤ a) (h : ∀ e ∈ l, 0 ≤ e.energyKwh) :
    0 ≤ l.foldl (fun s e => s + e.energyKwh) a := by
  induction l generalizing a with
  | nil => simpa using ha
  | cons x xs ih =>
    simp only [List.foldl_cons]
    refine ih (a + x.energyKwh) ?_ ?_
    · have hx : 0 ≤ x.energyKwh := h x (List.mem_cons_self x xs)
      linarith
    · intro e he
      exact h e (List.mem_cons_of_mem x he)

/-- `totalEnergy` of a series of non-negative energies is non-negative. -/
theorem totalEnergy_nonneg (l : List DailyTotal)
    (h : ∀ e ∈ l, 0 ≤ e.energyKwh) : 0 ≤ totalEnergy l :=
  foldl_energy_nonneg l 0 le_rfl h

/-- `round2` is monotone. -/
theorem round2_mono {a b : ℚ} (h : a ≤ b) : round2 a ≤ round2 b := by
  unfold round2
  have : (⌊a * 100 + 1 / 2⌋ : ℤ) ≤ ⌊b * 100 + 1 / 2⌋ := by
    apply Int.floor_le_floor
    linarith
  have h100 : (0 : ℚ) < 100 := by norm_num
  exact (div_le_div_iff_of_pos_right h100).mpr (by exact_mod_cast this)

/-- `round2` maps non-negative values to non-negative values. -/
theorem round2_nonneg {a : ℚ} (h : 0 ≤ a) : 0 ≤ round2 a := by
  have h0 : round2 0 = 0 := by unfold round2; norm_num
  calc (0 : ℚ) = round2 0 := h0.symm
    _ ≤ round2 a := round2_mono h

/-- Characterization of a successful previous-month load: the fetch
produced exactly this non-empty list and it passed the 50% completeness
check. -/
theorem loadPreviousMonthData_eq_some (year month : ℕ)
    (fetched : Option (List DailyTotal)) (l : List DailyTotal) :
    loadPreviousMonthData year month fetched = some l ↔
      fetched = some l ∧ l.length ≠ 0 ∧
        ¬(((l.length : ℚ) / (getDaysInMonth year month : ℚ)) * 100 < 50) := by
  unfold loadPreviousMonthData
  cases fetched with
  | none => simp
  | some dailyData =>
    by_cases hlen : dailyData.length = 0
    · simp [hlen]
      intro h
      subst h
      simp [hlen]
    · simp only [hlen, if_false]
      by_cases hc : ((dailyData.length : ℚ) / (getDaysInMonth year month : ℚ)) * 100 < 50
      · simp [hc]
        intro h
        subst h
        simp [hc]
      · simp only [hc, if_false]
        constructor
        · intro h
          cases h
          exact ⟨rfl, hlen, hc⟩
        · intro ⟨h, _, _⟩
          cases h
          rfl

/-- Characterization of an unavailable previous-month load: the fetch
failed, or it produced an empty series, or the series fails the 50%
completeness check. -/
theorem loadPreviousMonthData_eq_none (year month : ℕ)
    (fetched : Option (List DailyTotal)) :
    loadPreviousMonthData year month fetched = none ↔
      fetched = none ∨ ∃ l, fetched = some l ∧ (l.length = 0 ∨
        ((l.length : ℚ) / (getDaysInMonth year month : ℚ)) * 100 < 50) := by
  unfold loadPreviousMonthData
  cases fetched with
  | none => simp
  | some dailyData =>
    by_cases hlen : dailyData.length = 0
    · simp [hlen]
    · simp only [hlen, if_false]
      by_cases hc : ((dailyData.length : ℚ) / (getDaysInMonth year month : ℚ)) * 100 < 50
      · simp [hc]
      · have hnil : dailyData ≠ [] := by
          intro e
          rw [e] at hlen
          exact hlen rfl
        simp [hc, hlen, hnil]

/-- Every entry of the filtered current-month series comes from the full
series. -/
theorem mem_monthDataOf {e : DailyTotal} {l : List DailyTotal} {y mo : ℕ}
    {td : Option ℕ} (h : e ∈ monthDataOf l y mo td) : e ∈ l :=
  (List.mem_filter.mp h).1

/-- `Math.max(a, 0)` is non-negative. -/
theorem mathMax_zero_nonneg (a : ℚ) : 0 ≤ mathMax a 0 := by
  unfold mathMax
  split_ifs with h
  · exact le_rfl
  · exact le_of_not_le h

/-! ### Claim theorems -/

/-- Spec-side restatement of the confidence table, exactly as the claim
words it (level and score only; thresholds evaluated in order, first match
wins). -/
def confidenceLevelScoreSpec (d t : ℕ) (isHybrid hasPrior : Bool) : String × ℕ :=
  if ((d : ℚ) / (t : ℚ)) * 100 = 100 then ("exact", 100)
  else if 80 ≤ ((d : ℚ) / (t : ℚ)) * 100 then ("very_high", 90)
  else if 50 ≤ ((d : ℚ) / (t : ℚ)) * 100 then ("high", 80)
  else if 25 ≤ ((d : ℚ) / (t : ℚ)) * 100 then ("medium", 65)
  else if isHybrid && hasPrior then
    (if d = 2 then ("medium_hybrid", 55) else ("low_hybrid", 45))
  else if d = 2 then ("low", 35)
  else ("very_low", 25)

/-- Claim C4: the confidence scorer is a total function (it is a plain
Lean function, so totality is inherent; there is no error path in its
type) and for every input with a positive day count it evaluates
`percentComplete = daysObserved/daysInPeriod*100` against the thresholds
in order, first match wins: `== 100` gives exact/100, `>= 80` gives
very_high/90, `>= 50` gives high/80, `>= 25` gives medium/65; otherwise
with `isHybrid && hasPriorData` it gives medium_hybrid/55 when
`daysObserved == 2` else low_hybrid/45; otherwise low/35 when
`daysObserved == 2` else very_low/25. -/
theorem confidence_scorer_matches_table (d t : ℕ) (hyb prior : Bool)
    (ht : 0 < t) :
    ((calculateConfidenceHybrid d t hyb prior).level,
      (calculateConfidenceHybrid d t hyb prior).score) =
      confidenceLevelScoreSpec d t hyb prior := by
  simp only [calculateConfidenceHybrid, confidenceLevelScoreSpec]
  split_ifs <;> rfl

/-- Witness for `confidence_scorer_matches_table` at a concrete input
(2 observed days of a 31-day month, hybrid with prior data). -/
theorem confidence_scorer_matches_table_witness :
    ((calculateConfidenceHybrid 2 31 true true).level,
      (calculateConfidenceHybrid 2 31 true true).score) =
      confidenceLevelScoreSpec 2 31 true true :=
  confidence_scorer_matches_table 2 31 true true (by norm_num)

/-- Claim C6: the adaptive weight is 0.30 for one observed day, 0.50 for
two, and 0.30 for any other value; `weightPrevious = 1 - weightCurrent`;
both weights lie in [0,1] and they sum to exactly 1 (the arithmetic is
exact here: 3/10 + 7/10 = 1, and the corresponding IEEE doubles 0.3 + 0.7
also add to exactly 1.0). -/
theorem adaptive_weight_table (d : ℕ) :
    (d = 1 → calculateCurrentMonthWeight d = 3 / 10) ∧
    (d = 2 → calculateCurrentMonthWeight d = 1 / 2) ∧
    (d ≠ 1 → d ≠ 2 → calculateCurrentMonthWeight d = 3 / 10) ∧
    0 ≤ calculateCurrentMonthWeight d ∧ calculateCurrentMonthWeight d ≤ 1 ∧
    0 ≤ 1 - calculateCurrentMonthWeight d ∧ 1 - calculateCurrentMonthWeight d ≤ 1 ∧
    calculateCurrentMonthWeight d + (1 - calculateCurrentMonthWeight d) = 1 := by
  unfold calculateCurrentMonthWeight
  split_ifs with h1 h2 <;> simp_all <;> norm_num

/-- Witness for `adaptive_weight_table` at one observed day. -/
theorem adaptive_weight_table_witness :
    (1 = 1 → calculateCurrentMonthWeight 1 = 3 / 10) ∧
    (1 = 2 → calculateCurrentMonthWeight 1 = 1 / 2) ∧
    (1 ≠ 1 → 1 ≠ 2 → calculateCurrentMonthWeight 1 = 3 / 10) ∧
    0 ≤ calculateCurrentMonthWeight 1 ∧ calculateCurrentMonthWeight 1 ≤ 1 ∧
    0 ≤ 1 - calculateCurrentMonthWeight 1 ∧ 1 - calculateCurrentMonthWeight 1 ≤ 1 ∧
    calculateCurrentMonthWeight 1 + (1 - calculateCurrentMonthWeight 1) = 1 :=
  adaptive_weight_table 1

/-- Claim C7 counterexample: the scorer is NOT monotone in
`percentComplete` when only the hybrid flags are held fixed.  With
`isHybrid = hasPriorData = false`, two observed days of a 31-day month
(percentComplete about 6.45) score 35, while three observed days of the
same month (percentComplete about 9.68, strictly larger) score only 25. -/
theorem confidence_monotonicity_counterexample :
    ((2 : ℚ) / (31 : ℚ)) * 100 < ((3 : ℚ) / (31 : ℚ)) * 100 ∧
    (calculateConfidenceHybrid 2 31 false false).score = 35 ∧
    (calculateConfidenceHybrid 3 31 false false).score = 25 := by
  refine ⟨by norm_num, ?_, ?_⟩ <;> norm_num [calculateConfidenceHybrid]

/-- Claim C7 as amended: the score is monotone non-decreasing in
`percentComplete` when the hybrid flags AND the observed-day count are
held fixed (the period length varies) and both percent values are at most
100.  Holding only the hybrid flags fixed the property fails, because
below the 25% threshold the score depends on the raw observed-day count
(see `confidence_monotonicity_counterexample`). -/
theorem confidence_monotone_fixed_days (d t₁ t₂ : ℕ) (hyb prior : Bool)
    (h12 : ((d : ℚ) / (t₁ : ℚ)) * 100 ≤ ((d : ℚ) / (t₂ : ℚ)) * 100)
    (h2 : ((d : ℚ) / (t₂ : ℚ)) * 100 ≤ 100) :
    (calculateConfidenceHybrid d t₁ hyb prior).score ≤
      (calculateConfidenceHybrid d t₂ hyb prior).score := by
  rw [confidence_score_eq, confidence_score_eq]
  by_cases hq : ((d : ℚ) / (t₂ : ℚ)) * 100 = 100
  · rw [if_pos hq]
    split_ifs <;> norm_num
  · have hp : ((d : ℚ) / (t₁ : ℚ)) * 100 ≠ 100 := by
      intro e
      exact hq (le_antisymm h2 (e.symm.le.trans h12))
    rw [if_neg hp, if_neg hq]
    rcases le_or_lt 80 (((d : ℚ) / (t₁ : ℚ)) * 100) with h80p | h80p
    · rw [if_pos h80p, if_pos (h80p.trans h12)]
    · rw [if_neg (not_le.mpr h80p)]
      rcases le_or_lt 80 (((d : ℚ) / (t₂ : ℚ)) * 100) with h80q | h80q
      · rw [if_pos h80q]
        split_ifs <;> norm_num
      · rw [if_neg (not_le.mpr h80q)]
        rcases le_or_lt 50 (((d : ℚ) / (t₁ : ℚ)) * 100) with h50p | h50p
        · rw [if_pos h50p, if_pos (h50p.trans h12)]
        · rw [if_neg (not_le.mpr h50p)]
          rcases le_or_lt 50 (((d : ℚ) / (t₂ : ℚ)) * 100) with h50q | h50q
          · rw [if_pos h50q]
            split_ifs <;> norm_num
          · rw [if_neg (not_le.mpr h50q)]
            rcases le_or_lt 25 (((d : ℚ) / (t₁ : ℚ)) * 100) with h25p | h25p
            · rw [if_pos h25p, if_pos (h25p.trans h12)]
            · rw [if_neg (not_le.mpr h25p)]
              rcases le_or_lt 25 (((d : ℚ) / (t₂ : ℚ)) * 100) with h25q | h25q
              · rw [if_pos h25q]
                split_ifs <;> norm_num
              · rw [if_neg (not_le.mpr h25q)]

/-- Witness for `confidence_monotone_fixed_days`: one day of a 31-day
month versus one day of a 28-day month. -/
theorem confidence_monotone_fixed_days_witness :
    (calculateConfidenceHybrid 1 31 true true).score ≤
      (calculateConfidenceHybrid 1 28 true true).score :=
  confidence_monotone_fixed_days 1 31 28 true true (by norm_num) (by norm_num)

/-- Claim C9 counterexample: with the clock at 2025-06-15, the request
year=2025, month=7, day=40 has its day outside 1..31, so the claim
demands `InvalidPeriod`; the code checks the future-month condition
before the day range and returns `FUTURE_DATE` instead. -/
theorem validator_order_counterexample :
    validateNotFutureSelection 2025 6 15 (some 2025) (some 7) (some 40) =
      .futureDate "Future months/years are not allowed" ∧
    getDaysInMonth 2025 7 = 31 ∧ ¬(40 ≤ 31) ∧
    validateNotFutureSelection 2025 6 15 (some 2025) (some 7) (some 40) ≠
      .invalidDate ("day out of range (1-" ++ toString (getDaysInMonth 2025 7) ++ ")") := by
  refine ⟨by norm_num [validateNotFutureSelection], by norm_num [getDaysInMonth, isLeapYear],
    by norm_num, ?_⟩
  norm_num [validateNotFutureSelection]
  exact fun h => ValidationResult.noConfusion h

/-- Claim C9 as amended: with year and month supplied, the validator
rejects with `InvalidPeriod` when the month is outside 1..12, or when the
period is not a future month and the given day is outside
1..daysInMonth(year, month); it rejects with `FuturePeriod` when the
requested year/month is strictly after the current UTC year/month (this
check runs BEFORE the day-range check, even when the day is invalid), or
when an in-range day makes the full date strictly after today; otherwise
it returns Ok. -/
theorem validator_classification (ty tm td y mo : ℕ) (day : Option ℕ) :
    ((mo < 1 ∨ 12 < mo) →
      validateNotFutureSelection ty tm td (some y) (some mo) day =
        .invalidDate "month out of range (1-12)") ∧
    (1 ≤ mo → mo ≤ 12 → (ty < y ∨ (y = ty ∧ tm < mo)) →
      validateNotFutureSelection ty tm td (some y) (some mo) day =
        .futureDate "Future months/years are not allowed") ∧
    (∀ d, day = some d → 1 ≤ mo → mo ≤ 12 → ¬(ty < y ∨ (y = ty ∧ tm < mo)) →
      (d < 1 ∨ getDaysInMonth y mo < d) →
      validateNotFutureSelection ty tm td (some y) (some mo) day =
        .invalidDate ("day out of range (1-" ++ toString (getDaysInMonth y mo) ++ ")")) ∧
    (∀ d, day = some d → 1 ≤ mo → mo ≤ 12 → ¬(ty < y ∨ (y = ty ∧ tm < mo)) →
      1 ≤ d → d ≤ getDaysInMonth y mo → dateAfter (y, mo, d) (ty, tm, td) = true →
      validateNotFutureSelection ty tm td (some y) (some mo) day =
        .futureDate "Future dates are not allowed") ∧
    (1 ≤ mo → mo ≤ 12 → ¬(ty < y ∨ (y = ty ∧ tm < mo)) →
      (day = none ∨ ∃ d, day = some d ∧ 1 ≤ d ∧ d ≤ getDaysInMonth y mo ∧
        dateAfter (y, mo, d) (ty, tm, td) = false) →
      validateNotFutureSelection ty tm td (some y) (some mo) day = .ok) := by
  have hval : ∀ P : Prop, ∀ inst : Decidable P, P → (decide P = true) := by
    intro P inst hP
    exact decide_eq_true hP
  refine ⟨?_, ?_, ?_, ?_, ?_⟩
  · intro hmo
    simp only [validateNotFutureSelection]
    have : (mo < 1 || mo > 12) = true := by
      rcases hmo with h | h <;> simp [h]
    rw [if_pos this]
  · intro h1 h12 hfut
    simp only [validateNotFutureSelection]
    have hmo : ¬((mo < 1 || mo > 12) = true) := by simp; omega
    rw [if_neg hmo]
    have : (y > ty || (y == ty && mo > tm)) = true := by
      simp only [Bool.or_eq_true, Bool.and_eq_true, beq_iff_eq, decide_eq_true_eq]
      omega
    rw [if_pos this]
  · intro d hd h1 h12 hnf hout
    subst hd
    simp only [validateNotFutureSelection]
    have hmo : ¬((mo < 1 || mo > 12) = true) := by simp; omega
    rw [if_neg hmo]
    have hnf' : ¬((y > ty || (y == ty && mo > tm)) = true) := by
      simp only [Bool.or_eq_true, Bool.and_eq_true, beq_iff_eq, decide_eq_true_eq]
      omega
    rw [if_neg hnf']
    have : (d < 1 || d > getDaysInMonth y mo) = true := by
      simp only [Bool.or_eq_true, decide_eq_true_eq]
      omega
    rw [if_pos this]
  · intro d hd h1 h12 hnf hd1 hdim hafter
    subst hd
    simp only [validateNotFutureSelection]
    have hmo : ¬((mo < 1 || mo > 12) = true) := by simp; omega
    rw [if_neg hmo]
    have hnf' : ¬((y > ty || (y == ty && mo > tm)) = true) := by
      simp only [Bool.or_eq_true, Bool.and_eq_true, beq_iff_eq, decide_eq_true_eq]
      omega
    rw [if_neg hnf']
    have hrange : ¬((d < 1 || d > getDaysInMonth y mo) = true) := by
      simp only [Bool.or_eq_true, decide_eq_true_eq]
      omega
    rw [if_neg hrange, if_pos hafter]
  · intro h1 h12 hnf hday
    have hmo : ¬((mo < 1 || mo > 12) = true) := by simp; omega
    have hnf' : ¬((y > ty || (y == ty && mo > tm)) = true) := by
      simp only [Bool.or_eq_true, Bool.and_eq_true, beq_iff_eq, decide_eq_true_eq]
      omega
    rcases hday with hnone | ⟨d, hd, hd1, hdim, hnafter⟩
    · subst hnone
      simp only [validateNotFutureSelection]
      rw [if_neg hmo, if_neg hnf']
    · subst hd
      simp only [validateNotFutureSelection]
      rw [if_neg hmo, if_neg hnf']
      have hrange : ¬((d < 1 || d > getDaysInMonth y mo) = true) := by
        simp only [Bool.or_eq_true, decide_eq_true_eq]
        omega
      rw [if_neg hrange]
      rw [hnafter]
      simp

/-- Witness for `validator_classification` at the clock 2025-06-15 with
the in-range past request 2025-05-10. -/
theorem validator_classification_witness :
    validateNotFutureSelection 2025 6 15 (some 2025) (some 5) (some 10) = .ok :=
  ((validator_classification 2025 6 15 2025 5 (some 10)).2.2.2.2 (by norm_num)
    (by norm_num) (by omega)
    (Or.inr ⟨10, rfl, by norm_num, by norm_num [getDaysInMonth, isLeapYear], by decide⟩))

/-- Claim C5 counterexample: `isComplete` is NOT "observed days ≥ days in
period".  One observed day (2025-01-01) with `targetDay = 31` yields
`isComplete = true` and `valueSource = 'actual'` although only 1 of 31
days was observed: the code compares the effective day limit (the cutoff
day when given), not the observed-day count. -/
theorem isComplete_observed_days_counterexample :
    ((predictMonthHybrid jan1Series (some 2025) (some 1) (some 31) fetchNone).okOr
      emptyPrediction).isComplete = true ∧
    ((predictMonthHybrid jan1Series (some 2025) (some 1) (some 31) fetchNone).okOr
      emptyPrediction).daysPassedMonth = 1 ∧
    ((predictMonthHybrid jan1Series (some 2025) (some 1) (some 31) fetchNone).okOr
      emptyPrediction).daysInCurrentMonth = 31 ∧
    ((predictMonthHybrid jan1Series (some 2025) (some 1) (some 31) fetchNone).okOr
      emptyPrediction).valueSource = "actual" := by
  refine ⟨?_, ?_, ?_, ?_⟩ <;>
    norm_num [predictMonthHybrid, jan1Series, monthDataOf, resolvePeriod, optTruthy,
      inTargetPeriod, MIN_DAYS_REQUIRED, HYBRID_THRESHOLD, getDaysInMonth, isLeapYear,
      effectiveLimit, PredictOutcome.okOr]

/-- Claim C5 as amended: for every successful prediction, `isComplete` is
true exactly when the effective day limit — the cutoff day when one is
given, otherwise the observed-day count — is at least the number of days
in the period, and `valueSource` is 'actual' when complete and
'projection' otherwise. -/
theorem isComplete_iff_effective_limit (dailyData : List DailyTotal)
    (ty tm td : Option ℕ) (fetchPrev : ℕ → ℕ → Option (List DailyTotal))
    (r : MonthPrediction)
    (h : predictMonthHybrid dailyData ty tm td fetchPrev = .ok r) :
    (r.isComplete = true ↔ r.daysInCurrentMonth ≤ effectiveLimit td r.daysPassedMonth) ∧
    r.valueSource = (if r.isComplete then "actual" else "projection") := by
  simp only [predictMonthHybrid] at h
  split at h
  · exact absurd h (by simp)
  · split at h
    · exact absurd h (by simp)
    · rw [PredictOutcome.ok.injEq] at h
      subst h
      refine ⟨?_, rfl⟩
      simp [decide_eq_true_eq]

/-- Witness for `isComplete_iff_effective_limit` at the counterexample
input (1 observed day, cutoff day 31). -/
theorem isComplete_iff_effective_limit_witness :
    (((predictMonthHybrid jan1Series (some 2025) (some 1) (some 31) fetchNone).okOr
        emptyPrediction).isComplete = true ↔
      ((predictMonthHybrid jan1Series (some 2025) (some 1) (some 31) fetchNone).okOr
        emptyPrediction).daysInCurrentMonth ≤
        effectiveLimit (some 31)
          ((predictMonthHybrid jan1Series (some 2025) (some 1) (some 31) fetchNone).okOr
            emptyPrediction).daysPassedMonth) ∧
    ((predictMonthHybrid jan1Series (some 2025) (some 1) (some 31) fetchNone).okOr
        emptyPrediction).valueSource =
      (if ((predictMonthHybrid jan1Series (some 2025) (some 1) (some 31) fetchNone).okOr
          emptyPrediction).isComplete then "actual" else "projection") :=
  isComplete_iff_effective_limit jan1Series (some 2025) (some 1) (some 31) fetchNone _ rfl

/-- A one-entry series lying outside the requested period, used to make
the current-period filter come up empty. -/
def straySeries : List DailyTotal := [{ y := 2020, m := 1, d := 5, energyKwh := 10 }]

/-- Claim C8 counterexample: when the current-period filter finds 0
entries for the requested period 1111-11, the failure message is
`Need at least 1 days of 1111-11.` — it contains the year-month but NOT
the count of entries found: the count is 0, and the message contains no
character `0` at all (`Char.ofNat 48` is `0`). -/
theorem failure_message_count_counterexample :
    predictMonthHybrid straySeries (some 1111) (some 11) none fetchNone =
      .failure "Need at least 1 days of 1111-11." ∧
    (("Need at least 1 days of 1111-11.").data.contains (Char.ofNat 48)) = false ∧
    (monthDataOf straySeries 1111 11 none).length = 0 := by
  refine ⟨?_, by decide, by decide⟩
  norm_num [predictMonthHybrid, straySeries, monthDataOf, resolvePeriod, optTruthy,
    inTargetPeriod, MIN_DAYS_REQUIRED, pad2]
  rfl

/-- Claim C8 as amended: when the current-period filter (target
year/month plus optional cutoff day) leaves fewer than 1 entry while the
full series is non-empty, `predictMonthHybrid` fails, and the failure
message includes the target year-month — but not the count of entries
found (see `failure_message_count_counterexample`). -/
theorem filter_failure_message (dailyData : List DailyTotal) (ty tm td : Option ℕ)
    (fetchPrev : ℕ → ℕ → Option (List DailyTotal))
    (hne : 1 ≤ dailyData.length)
    (hempty : (monthDataOf dailyData (resolvePeriod ty tm dailyData).1
        (resolvePeriod ty tm dailyData).2 td).length < 1) :
    ∃ pre post : String,
      predictMonthHybrid dailyData ty tm td fetchPrev =
        .failure (pre ++ (toString (resolvePeriod ty tm dailyData).1 ++ "-" ++
          pad2 (resolvePeriod ty tm dailyData).2) ++ post) := by
  refine ⟨"Need at least " ++ toString MIN_DAYS_REQUIRED ++ " days of ", ".", ?_⟩
  simp only [predictMonthHybrid]
  rw [if_neg (by simp only [MIN_DAYS_REQUIRED]; omega)]
  rw [if_pos (by simpa only [MIN_DAYS_REQUIRED] using hempty)]
  simp [String.append_assoc]

/-- Witness for `filter_failure_message` at the counterexample input. -/
theorem filter_failure_message_witness :
    ∃ pre post : String,
      predictMonthHybrid straySeries (some 1111) (some 11) none fetchNone =
        .failure (pre ++ (toString (resolvePeriod (some 1111) (some 11) straySeries).1 ++
          "-" ++ pad2 (resolvePeriod (some 1111) (some 11) straySeries).2) ++ post) :=
  filter_failure_message straySeries (some 1111) (some 11) none fetchNone
    (by decide) (by decide)

/-- Claim C3: whenever hybrid mode is attempted (fewer than 3 observed
days, period not complete) and the prior-period load comes back
unavailable — a failed fetch, an empty series, or a series under 50% of
the prior month's days all make `loadPreviousMonthData` return `none` —
`predictMonthHybrid` still returns a successful result: the
unavailability is never surfaced as an error; the mode is
`standard_fallback`, the prediction is `avgCurrent * daysInPeriod`
(rounded at the boundary like every returned figure), and the hybrid
detail carries a reason string. -/
theorem prior_unavailable_falls_back
    (dailyData : List DailyTotal) (ty tm td : Option ℕ)
    (fetchPrev : ℕ → ℕ → Option (List DailyTotal))
    (y mo py pm : ℕ) (md : List DailyTotal)
    (hym : resolvePeriod ty tm dailyData = (y, mo))
    (hmd : monthDataOf dailyData y mo td = md)
    (hpm : getPreviousMonth y mo = (py, pm))
    (hne : 1 ≤ dailyData.length)
    (hdata : 1 ≤ md.length)
    (hfew : md.length < HYBRID_THRESHOLD)
    (hinc : effectiveLimit td md.length < getDaysInMonth y mo)
    (hprior : loadPreviousMonthData py pm (fetchPrev py pm) = none) :
    ∃ r, predictMonthHybrid dailyData ty tm td fetchPrev = .ok r ∧
      r.predictionMode = "standard_fallback" ∧
      r.predictedMonthKwh =
        round2 ((totalEnergy md / (md.length : ℚ)) * (getDaysInMonth y mo : ℚ)) ∧
      r.hybrid = some (.standardFallback "Previous month data not available"
        "Prediction based on limited current month data only") := by
  simp only [predictMonthHybrid, hym, hmd, hpm]
  rw [if_neg (by simp only [MIN_DAYS_REQUIRED]; omega)]
  rw [if_neg (by simp only [MIN_DAYS_REQUIRED]; omega)]
  have hu : (decide (md.length < HYBRID_THRESHOLD) &&
      !decide (getDaysInMonth y mo ≤ effectiveLimit td md.length)) = true := by
    simp only [Bool.and_eq_true, Bool.not_eq_true', decide_eq_true_eq, decide_eq_false_iff_not]
    omega
  rw [hu]
  simp only [Bool.not_true, Bool.false_eq_true, if_false, hprior]
  exact ⟨_, rfl, rfl, rfl, rfl⟩

/-- Witness for `prior_unavailable_falls_back`: one observed day
(2025-01-01, 85 kWh) and no prior December data: the result is a
successful `standard_fallback` prediction of `round2 (85 * 31)`. -/
theorem prior_unavailable_falls_back_witness :
    ∃ r, predictMonthHybrid jan1Series (some 2025) (some 1) (some 1) fetchNone = .ok r ∧
      r.predictionMode = "standard_fallback" ∧
      r.predictedMonthKwh =
        round2 ((totalEnergy jan1Series / (jan1Series.length : ℚ)) *
          (getDaysInMonth 2025 1 : ℚ)) ∧
      r.hybrid = some (.standardFallback "Previous month data not available"
        "Prediction based on limited current month data only") :=
  prior_unavailable_falls_back jan1Series (some 2025) (some 1) (some 1) fetchNone
    2025 1 2024 12 jan1Series rfl rfl rfl (by norm_num [jan1Series]) (by norm_num [jan1Series])
    (by norm_num [jan1Series, HYBRID_THRESHOLD])
    (by norm_num [jan1Series, effectiveLimit, getDaysInMonth]) rfl

/-- Claim C2: the returned mode discriminates the three paths.
`hybrid` implies fewer than 3 observed days, not complete, and a prior
fetch that returned a non-empty series covering at least 50% of the prior
month's days; `standard_fallback` implies fewer than 3 observed days, not
complete, and a prior fetch that failed, returned an empty series, or
came in under 50% complete; `standard` implies at least 3 observed days
or a complete period. -/
theorem prediction_mode_discrimination
    (dailyData : List DailyTotal) (ty tm td : Option ℕ)
    (fetchPrev : ℕ → ℕ → Option (List DailyTotal)) (r : MonthPrediction)
    (h : predictMonthHybrid dailyData ty tm td fetchPrev = .ok r) :
    (r.predictionMode = "hybrid" →
      r.daysPassedMonth < HYBRID_THRESHOLD ∧ r.isComplete = false ∧
      ∃ l, fetchPrev (getPreviousMonth r.year r.month).1
          (getPreviousMonth r.year r.month).2 = some l ∧
        l.length ≠ 0 ∧
        50 ≤ ((l.length : ℚ) / (getDaysInMonth (getPreviousMonth r.year r.month).1
          (getPreviousMonth r.year r.month).2 : ℚ)) * 100) ∧
    (r.predictionMode = "standard_fallback" →
      r.daysPassedMonth < HYBRID_THRESHOLD ∧ r.isComplete = false ∧
      (fetchPrev (getPreviousMonth r.year r.month).1
          (getPreviousMonth r.year r.month).2 = none ∨
        ∃ l, fetchPrev (getPreviousMonth r.year r.month).1
            (getPreviousMonth r.year r.month).2 = some l ∧
          (l.length = 0 ∨
            ((l.length : ℚ) / (getDaysInMonth (getPreviousMonth r.year r.month).1
              (getPreviousMonth r.year r.month).2 : ℚ)) * 100 < 50))) ∧
    (r.predictionMode = "standard" →
      HYBRID_THRESHOLD ≤ r.daysPassedMonth ∨ r.isComplete = true) := by
  simp only [predictMonthHybrid] at h
  set y := (resolvePeriod ty tm dailyData).1 with hy
  set mo := (resolvePeriod ty tm dailyData).2 with hmo
  set md := monthDataOf dailyData y mo td with hmd
  set dim := getDaysInMonth y mo with hdim
  split at h
  · exact absurd h (by simp)
  · split at h
    · exact absurd h (by simp)
    · by_cases h3 : md.length < HYBRID_THRESHOLD
      · by_cases hcmp : dim ≤ effectiveLimit td md.length
        · have hu : (decide (md.length < HYBRID_THRESHOLD) &&
              !decide (dim ≤ effectiveLimit td md.length)) = false := by
            simp [h3, hcmp]
          rw [hu] at h
          simp only [Bool.not_false, if_true] at h
          rw [PredictOutcome.ok.injEq] at h
          subst h
          refine ⟨fun hm => by simp [predictionModeOf] at hm,
            fun hm => by simp [predictionModeOf] at hm, fun _ => ?_⟩
          exact Or.inr (decide_eq_true hcmp)
        · have hu : (decide (md.length < HYBRID_THRESHOLD) &&
              !decide (dim ≤ effectiveLimit td md.length)) = true := by
            simp [h3, hcmp]
          rw [hu] at h
          simp only [Bool.not_true, Bool.false_eq_true, if_false] at h
          cases hl : loadPreviousMonthData (getPreviousMonth y mo).1 (getPreviousMonth y mo).2
              (fetchPrev (getPreviousMonth y mo).1 (getPreviousMonth y mo).2) with
          | none =>
            rw [hl] at h
            rw [PredictOutcome.ok.injEq] at h
            subst h
            refine ⟨fun hm => by simp [predictionModeOf, HybridMeta.mode] at hm,
              fun _ => ?_,
              fun hm => by simp [predictionModeOf, HybridMeta.mode] at hm⟩
            refine ⟨h3, decide_eq_false hcmp, ?_⟩
            exact (loadPreviousMonthData_eq_none _ _ _).mp hl
          | some l =>
            rw [hl] at h
            rw [PredictOutcome.ok.injEq] at h
            subst h
            refine ⟨fun _ => ?_,
              fun hm => by simp [predictionModeOf, HybridMeta.mode] at hm,
              fun hm => by simp [predictionModeOf, HybridMeta.mode] at hm⟩
            have hchar := (loadPreviousMonthData_eq_some _ _ _ _).mp hl
            exact ⟨h3, decide_eq_false hcmp,
              l, hchar.1, hchar.2.1, not_lt.mp hchar.2.2⟩
      · have hu : (decide (md.length < HYBRID_THRESHOLD) &&
            !decide (dim ≤ effectiveLimit td md.length)) = false := by
          simp [h3]
        rw [hu] at h
        simp only [Bool.not_false, if_true] at h
        rw [PredictOutcome.ok.injEq] at h
        subst h
        refine ⟨fun hm => by simp [predictionModeOf] at hm,
          fun hm => by simp [predictionModeOf] at hm, fun _ => ?_⟩
        exact Or.inl (not_lt.mp h3)

/-- Witness for `prediction_mode_discrimination` at the single-day
hybrid scenario (prior December available and complete). -/
theorem prediction_mode_discrimination_witness :
    (((predictMonthHybrid jan1Series (some 2025) (some 1) (some 1) fetchDec).okOr
        emptyPrediction).predictionMode = "hybrid" →
      ((predictMonthHybrid jan1Series (some 2025) (some 1) (some 1) fetchDec).okOr
        emptyPrediction).daysPassedMonth < HYBRID_THRESHOLD ∧
      ((predictMonthHybrid jan1Series (some 2025) (some 1) (some 1) fetchDec).okOr
        emptyPrediction).isComplete = false ∧
      ∃ l, fetchDec (getPreviousMonth
            ((predictMonthHybrid jan1Series (some 2025) (some 1) (some 1) fetchDec).okOr
              emptyPrediction).year
            ((predictMonthHybrid jan1Series (some 2025) (some 1) (some 1) fetchDec).okOr
              emptyPrediction).month).1
          (getPreviousMonth
            ((predictMonthHybrid jan1Series (some 2025) (some 1) (some 1) fetchDec).okOr
              emptyPrediction).year
            ((predictMonthHybrid jan1Series (some 2025) (some 1) (some 1) fetchDec).okOr
              emptyPrediction).month).2 = some l ∧
        l.length ≠ 0 ∧
        50 ≤ ((l.length : ℚ) / (getDaysInMonth
          (getPreviousMonth
            ((predictMonthHybrid jan1Series (some 2025) (some 1) (some 1) fetchDec).okOr
              emptyPrediction).year
            ((predictMonthHybrid jan1Series (some 2025) (some 1) (some 1) fetchDec).okOr
              emptyPrediction).month).1
          (getPreviousMonth
            ((predictMonthHybrid jan1Series (some 2025) (some 1) (some 1) fetchDec).okOr
              emptyPrediction).year
            ((predictMonthHybrid jan1Series (some 2025) (some 1) (some 1) fetchDec).okOr
              emptyPrediction).month).2 : ℚ)) * 100) ∧
    (((predictMonthHybrid jan1Series (some 2025) (some 1) (some 1) fetchDec).okOr
        emptyPrediction).predictionMode = "standard_fallback" →
      ((predictMonthHybrid jan1Series (some 2025) (some 1) (some 1) fetchDec).okOr
        emptyPrediction).daysPassedMonth < HYBRID_THRESHOLD ∧
      ((predictMonthHybrid jan1Series (some 2025) (some 1) (some 1) fetchDec).okOr
        emptyPrediction).isComplete = false ∧
      (fetchDec (getPreviousMonth
          ((predictMonthHybrid jan1Series (some 2025) (some 1) (some 1) fetchDec).okOr
            emptyPrediction).year
          ((predictMonthHybrid jan1Series (some 2025) (some 1) (some 1) fetchDec).okOr
            emptyPrediction).month).1
        (getPreviousMonth
          ((predictMonthHybrid jan1Series (some 2025) (some 1) (some 1) fetchDec).okOr
            emptyPrediction).year
          ((predictMonthHybrid jan1Series (some 2025) (some 1) (some 1) fetchDec).okOr
            emptyPrediction).month).2 = none ∨
        ∃ l, fetchDec (getPreviousMonth
            ((predictMonthHybrid jan1Series (some 2025) (some 1) (some 1) fetchDec).okOr
              emptyPrediction).year
            ((predictMonthHybrid jan1Series (some 2025) (some 1) (some 1) fetchDec).okOr
              emptyPrediction).month).1
          (getPreviousMonth
            ((predictMonthHybrid jan1Series (some 2025) (some 1) (some 1) fetchDec).okOr
              emptyPrediction).year
            ((predictMonthHybrid jan1Series (some 2025) (some 1) (some 1) fetchDec).okOr
              emptyPrediction).month).2 = some l ∧
          (l.length = 0 ∨
            ((l.length : ℚ) / (getDaysInMonth
              (getPreviousMonth
                ((predictMonthHybrid jan1Series (some 2025) (some 1) (some 1) fetchDec).okOr
                  emptyPrediction).year
                ((predictMonthHybrid jan1Series (some 2025) (some 1) (some 1) fetchDec).okOr
                  emptyPrediction).month).1
              (getPreviousMonth
                ((predictMonthHybrid jan1Series (some 2025) (some 1) (some 1) fetchDec).okOr
                  emptyPrediction).year
                ((predictMonthHybrid jan1Series (some 2025) (some 1) (some 1) fetchDec).okOr
                  emptyPrediction).month).2 : ℚ)) * 100 < 50))) ∧
    (((predictMonthHybrid jan1Series (some 2025) (some 1) (some 1) fetchDec).okOr
        emptyPrediction).predictionMode = "standard" →
      HYBRID_THRESHOLD ≤ ((predictMonthHybrid jan1Series (some 2025) (some 1)
        (some 1) fetchDec).okOr emptyPrediction).daysPassedMonth ∨
      ((predictMonthHybrid jan1Series (some 2025) (some 1) (some 1) fetchDec).okOr
        emptyPrediction).isComplete = true) :=
  prediction_mode_discrimination jan1Series (some 2025) (some 1) (some 1) fetchDec _ rfl

/-- Claim C1 counterexample: for the claim's own concrete instance — one
observed day of 85.0 kWh in the 31-day January 2025 with the prior
December (31 days, avgDaily = 150.0) available — the engine's hybrid
prediction is 85 + 130.5 * 30 = 4000.0 exactly, not the 4000.5 the claim
asserts (the claim's arithmetic is off by 0.5; the formula itself is the
one the code computes). -/
theorem hybrid_scenario_value_counterexample :
    ((predictMonthHybrid jan1Series (some 2025) (some 1) (some 1) fetchDec).okOr
      emptyPrediction).predictionMode = "hybrid" ∧
    ((predictMonthHybrid jan1Series (some 2025) (some 1) (some 1) fetchDec).okOr
      emptyPrediction).predictedMonthKwh = 4000 ∧
    ¬(((predictMonthHybrid jan1Series (some 2025) (some 1) (some 1) fetchDec).okOr
      emptyPrediction).predictedMonthKwh = 8001 / 2) := by
  refine ⟨?_, ?_, ?_⟩ <;>
    norm_num [predictMonthHybrid, jan1Series, monthDataOf, resolvePeriod, optTruthy,
      inTargetPeriod, MIN_DAYS_REQUIRED, HYBRID_THRESHOLD, getDaysInMonth, isLeapYear,
      effectiveLimit, totalEnergy, getPreviousMonth, loadPreviousMonthData, fetchDec,
      dec2024, List.range_succ, calculateCurrentMonthWeight, round2, mathMax, mathMin,
      PredictOutcome.okOr, predictionModeOf, HybridMeta.mode]

/-- Claim C1 as amended: in hybrid mode (fewer than 3 observed days, not
complete, prior data loaded successfully) the engine computes
`avgHybrid = avgCurrent * weightCurrent + avgPrevious * weightPrevious`
and returns
`predicted = totalCurrent + avgHybrid * max(daysInPeriod - daysObserved, 0)`
(rounded to 2 decimals at the boundary): the observed total is kept exact
and only the remaining days are forecast at the blended rate.  For the
concrete single-day scenario of the claim the value is 4000.0, not 4000.5
(see `hybrid_scenario_value_counterexample`). -/
theorem hybrid_projection_formula
    (dailyData : List DailyTotal) (ty tm td : Option ℕ)
    (fetchPrev : ℕ → ℕ → Option (List DailyTotal))
    (y mo py pm : ℕ) (md prevData : List DailyTotal)
    (hym : resolvePeriod ty tm dailyData = (y, mo))
    (hmd : monthDataOf dailyData y mo td = md)
    (hpm : getPreviousMonth y mo = (py, pm))
    (hne : 1 ≤ dailyData.length)
    (hdata : 1 ≤ md.length)
    (hfew : md.length < HYBRID_THRESHOLD)
    (hinc : effectiveLimit td md.length < getDaysInMonth y mo)
    (hprior : loadPreviousMonthData py pm (fetchPrev py pm) = some prevData) :
    ∃ r, predictMonthHybrid dailyData ty tm td fetchPrev = .ok r ∧
      r.predictionMode = "hybrid" ∧
      r.totalEnergyMonth = round2 (totalEnergy md) ∧
      r.predictedMonthKwh =
        round2 (totalEnergy md +
          ((totalEnergy md / (md.length : ℚ)) * calculateCurrentMonthWeight md.length +
            (totalEnergy prevData / (prevData.length : ℚ)) *
              (1 - calculateCurrentMonthWeight md.length)) *
          mathMax ((getDaysInMonth y mo : ℚ) - (md.length : ℚ)) 0) := by
  simp only [predictMonthHybrid, hym, hmd, hpm]
  rw [if_neg (by simp only [MIN_DAYS_REQUIRED]; omega)]
  rw [if_neg (by simp only [MIN_DAYS_REQUIRED]; omega)]
  have hu : (decide (md.length < HYBRID_THRESHOLD) &&
      !decide (getDaysInMonth y mo ≤ effectiveLimit td md.length)) = true := by
    simp only [Bool.and_eq_true, Bool.not_eq_true', decide_eq_true_eq, decide_eq_false_iff_not]
    omega
  rw [hu]
  simp only [Bool.not_true, Bool.false_eq_true, if_false, hprior]
  exact ⟨_, rfl, rfl, rfl, rfl⟩

/-- Witness for `hybrid_projection_formula` at the single-day scenario:
2025-01-01 with 85 kWh and the complete December 2024 prior series. -/
theorem hybrid_projection_formula_witness :
    ∃ r, predictMonthHybrid jan1Series (some 2025) (some 1) (some 1) fetchDec = .ok r ∧
      r.predictionMode = "hybrid" ∧
      r.totalEnergyMonth = round2 (totalEnergy jan1Series) ∧
      r.predictedMonthKwh =
        round2 (totalEnergy jan1Series +
          ((totalEnergy jan1Series / (jan1Series.length : ℚ)) *
              calculateCurrentMonthWeight jan1Series.length +
            (totalEnergy dec2024 / (dec2024.length : ℚ)) *
              (1 - calculateCurrentMonthWeight jan1Series.length)) *
          mathMax ((getDaysInMonth 2025 1 : ℚ) - (jan1Series.length : ℚ)) 0) :=
  hybrid_projection_formula jan1Series (some 2025) (some 1) (some 1) fetchDec
    2025 1 2024 12 jan1Series dec2024 rfl rfl rfl
    (by norm_num [jan1Series]) (by norm_num [jan1Series])
    (by norm_num [jan1Series, HYBRID_THRESHOLD])
    (by norm_num [jan1Series, effectiveLimit, getDaysInMonth])
    (by norm_num [loadPreviousMonthData, fetchDec, dec2024, getDaysInMonth, isLeapYear])

/-- Claim C10: when every energy value of the meter's series is
non-negative and every series the prior-period oracle can return is
non-negative as well, every successful prediction has
`predictedMonthKwh >= 0`, and in hybrid mode
`predictedMonthKwh >= totalEnergyMonth`: the remaining-days factor is
clamped at zero and the blended average is non-negative, so the blended
forecast never predicts less than the already-observed total. -/
theorem prediction_nonneg
    (dailyData : List DailyTotal) (ty tm td : Option ℕ)
    (fetchPrev : ℕ → ℕ → Option (List DailyTotal)) (r : MonthPrediction)
    (hcur : ∀ e ∈ dailyData, 0 ≤ e.energyKwh)
    (hprev : ∀ py pm l, fetchPrev py pm = some l → ∀ e ∈ l, 0 ≤ e.energyKwh)
    (h : predictMonthHybrid dailyData ty tm td fetchPrev = .ok r) :
    0 ≤ r.predictedMonthKwh ∧
    (r.predictionMode = "hybrid" → r.totalEnergyMonth ≤ r.predictedMonthKwh) := by
  simp only [predictMonthHybrid] at h
  set y := (resolvePeriod ty tm dailyData).1 with hy
  set mo := (resolvePeriod ty tm dailyData).2 with hmo
  set md := monthDataOf dailyData y mo td with hmd
  set dim := getDaysInMonth y mo with hdim
  have hmdn : ∀ e ∈ md, 0 ≤ e.energyKwh := by
    intro e he
    rw [hmd] at he
    exact hcur e (mem_monthDataOf he)
  have hT : 0 ≤ totalEnergy md := totalEnergy_nonneg md hmdn
  have havg : 0 ≤ totalEnergy md / (md.length : ℚ) :=
    div_nonneg hT (by positivity)
  have hdimn : (0 : ℚ) ≤ (dim : ℚ) := by positivity
  split at h
  · exact absurd h (by simp)
  · split at h
    · exact absurd h (by simp)
    · by_cases h3 : md.length < HYBRID_THRESHOLD
      · by_cases hcmp : dim ≤ effectiveLimit td md.length
        · have hu : (decide (md.length < HYBRID_THRESHOLD) &&
              !decide (dim ≤ effectiveLimit td md.length)) = false := by
            simp [h3, hcmp]
          rw [hu] at h
          simp only [Bool.not_false, if_true] at h
          rw [PredictOutcome.ok.injEq] at h
          subst h
          refine ⟨?_, fun hm => by simp [predictionModeOf] at hm⟩
          refine round2_nonneg ?_
          split_ifs
          · exact hT
          · exact mul_nonneg havg hdimn
        · have hu : (decide (md.length < HYBRID_THRESHOLD) &&
              !decide (dim ≤ effectiveLimit td md.length)) = true := by
            simp [h3, hcmp]
          rw [hu] at h
          simp only [Bool.not_true, Bool.false_eq_true, if_false] at h
          cases hl : loadPreviousMonthData (getPreviousMonth y mo).1 (getPreviousMonth y mo).2
              (fetchPrev (getPreviousMonth y mo).1 (getPreviousMonth y mo).2) with
          | none =>
            rw [hl] at h
            rw [PredictOutcome.ok.injEq] at h
            subst h
            exact ⟨round2_nonneg (mul_nonneg havg hdimn),
              fun hm => by simp [predictionModeOf, HybridMeta.mode] at hm⟩
          | some l =>
            rw [hl] at h
            rw [PredictOutcome.ok.injEq] at h
            subst h
            have hchar := (loadPreviousMonthData_eq_some _ _ _ _).mp hl
            have hln : ∀ e ∈ l, 0 ≤ e.energyKwh := hprev _ _ l hchar.1
            have hTP : 0 ≤ totalEnergy l := totalEnergy_nonneg l hln
            have havgP : 0 ≤ totalEnergy l / (l.length : ℚ) :=
              div_nonneg hTP (by positivity)
            have hw := calculateCurrentMonthWeight_bounds md.length
            have hH : 0 ≤ totalEnergy md / (md.length : ℚ) *
                calculateCurrentMonthWeight md.length +
                totalEnergy l / (l.length : ℚ) *
                  (1 - calculateCurrentMonthWeight md.length) :=
              add_nonneg (mul_nonneg havg hw.1)
                (mul_nonneg havgP (by linarith [hw.2]))
            have hrem : (0 : ℚ) ≤ mathMax ((dim : ℚ) - (md.length : ℚ)) 0 :=
              mathMax_zero_nonneg _
            have hstep : totalEnergy md ≤ totalEnergy md +
                (totalEnergy md / (md.length : ℚ) *
                  calculateCurrentMonthWeight md.length +
                  totalEnergy l / (l.length : ℚ) *
                    (1 - calculateCurrentMonthWeight md.length)) *
                mathMax ((dim : ℚ) - (md.length : ℚ)) 0 :=
              le_add_of_nonneg_right (mul_nonneg hH hrem)
            exact ⟨round2_nonneg (hT.trans hstep), fun _ => round2_mono hstep⟩
      · have hu : (decide (md.length < HYBRID_THRESHOLD) &&
            !decide (dim ≤ effectiveLimit td md.length)) = false := by
          simp [h3]
        rw [hu] at h
        simp only [Bool.not_false, if_true] at h
        rw [PredictOutcome.ok.injEq] at h
        subst h
        refine ⟨?_, fun hm => by simp [predictionModeOf] at hm⟩
        refine round2_nonneg ?_
        split_ifs
        · exact hT
        · exact mul_nonneg havg hdimn

/-- Witness for `prediction_nonneg` at the single-day hybrid scenario. -/
theorem prediction_nonneg_witness :
    0 ≤ ((predictMonthHybrid jan1Series (some 2025) (some 1) (some 1) fetchDec).okOr
      emptyPrediction).predictedMonthKwh ∧
    (((predictMonthHybrid jan1Series (some 2025) (some 1) (some 1) fetchDec).okOr
        emptyPrediction).predictionMode = "hybrid" →
      ((predictMonthHybrid jan1Series (some 2025) (some 1) (some 1) fetchDec).okOr
        emptyPrediction).totalEnergyMonth ≤
        ((predictMonthHybrid jan1Series (some 2025) (some 1) (some 1) fetchDec).okOr
          emptyPrediction).predictedMonthKwh) :=
  prediction_nonneg jan1Series (some 2025) (some 1) (some 1) fetchDec _
    (by intro e he; norm_num [jan1Series] at he; rw [he]; norm_num)
    (by
      intro py pm l hl e he
      unfold fetchDec at hl
      split at hl
      · rw [Option.some.injEq] at hl
        subst hl
        unfold dec2024 at he
        rw [List.mem_map] at he
        obtain ⟨i, _, hie⟩ := he
        rw [← hie]
        norm_num
      · exact absurd hl (by simp))
    rfl

end RunRate
